import Mathlib

/-!
Verification of the ebayclone-GraphQL marketplace server.

Shallow embedding of the in-memory data store (src/data/store.js), the
validation utilities (src/utils/validation.js), the auth guard
(src/utils/auth.js) and the resolver layer (userResolvers, authResolvers,
listingResolvers, orderResolvers) in Lean 4.

Modelling conventions:
- JavaScript numbers that hold identifiers are Nat; prices and quantities
  are Int (exact arithmetic stands in for JS float arithmetic; quantity is
  validated to be an integer in the source, so Int is faithful there).
- `new Date().toISOString()` timestamps are an abstract clock value
  `now : Nat` threaded explicitly.
- A thrown GraphQLError is the error branch of Except; resolvers that
  mutate return a pair of the Except result and the (possibly updated)
  store, so that a throw before any mutation provably leaves the store
  unchanged. The structured `details` payload of errors is elided; the
  `message` and extension `code` are kept.
- JWT signing/verification is modelled abstractly: a signed token carries
  its payload and the secret it was signed with; verification checks the
  secret and the embedded expiry, exactly the statelessness the source has.
- bcrypt hash/compare are opaque function parameters of the resolvers that
  use them.
- JS truthiness tests on strings and numbers (`filter.userId`,
  `cancelReason || default`) are modelled explicitly: 0 and "" are falsy.
-/

/-- A GraphQLError as thrown by the source: message plus machine code. -/
structure GqlError where
  message : String
  code : String
  deriving DecidableEq, Repr

/-- The decoded JWT claims; `jwt.sign({id, email, username}, secret, 24h)`
also embeds an expiry, carried here as `exp`. -/
structure JwtPayload where
  id : Nat
  email : String
  username : String
  exp : Nat
  deriving DecidableEq, Repr

/-- A signed token: its payload plus the secret it was signed with.
`jwt.verify` succeeds exactly when the verifying secret matches and the
token is not expired. -/
structure SignedJwt where
  payload : JwtPayload
  secret : String
  deriving DecidableEq, Repr

/-- The per-request context built by createContext in server.js:
an optional decoded identity and the raw bearer token. -/
structure Context where
  user : Option JwtPayload
  token : Option SignedJwt
  deriving DecidableEq, Repr

/-- User record as stored (password is the bcrypt hash). -/
structure User where
  id : Nat
  username : String
  email : String
  password : String
  createdAt : Nat
  updatedAt : Nat
  deriving DecidableEq, Repr

/-- The user shape returned by resolvers: `const {password, ...rest}`
removes the password key, modelled as the field being none. -/
structure UserView where
  id : Nat
  username : String
  email : String
  password : Option String
  createdAt : Nat
  updatedAt : Nat
  deriving DecidableEq, Repr

/-- Drop the password key, as the destructuring in the resolvers does. -/
def stripPassword (u : User) : UserView :=
  { id := u.id, username := u.username, email := u.email, password := none,
    createdAt := u.createdAt, updatedAt := u.updatedAt }

/-- Listing record as stored. -/
structure Listing where
  id : Nat
  title : String
  description : String
  price : Int
  category : String
  condition : String
  location : String
  images : List String
  userId : Nat
  createdAt : Nat
  updatedAt : Nat
  deriving DecidableEq, Repr

/-- Embedded shipping address structure. -/
structure Address where
  street : String
  city : String
  state : String
  zipCode : String
  country : String
  deriving DecidableEq, Repr

/-- Order record as stored; status is the raw enum string as in the JS
store, cancellation fields are absent (none) until cancelOrder sets them. -/
structure Order where
  id : Nat
  userId : Nat
  listingId : Nat
  quantity : Int
  totalPrice : Int
  status : String
  shippingAddress : Address
  buyerNotes : Option String
  cancelledAt : Option Nat
  cancelReason : Option String
  createdAt : Nat
  updatedAt : Nat
  deriving DecidableEq, Repr

/-- The DataStore singleton state: arrays, session set, id counters. -/
structure DataStore where
  users : List User
  listings : List Listing
  orders : List Order
  sessions : List SignedJwt
  nextUserId : Nat
  nextListingId : Nat
  nextOrderId : Nat
  deriving DecidableEq, Repr

/-! ### Generic array helpers

`findIndex` + in-place replacement / `splice` on a JS array, acting on the
first element matching the predicate. -/

/-- Replace the first element satisfying p by its image under f; return the
updated element (none on miss) with the updated list. Mirrors
findIndex + assignment at that index. -/
def updateFirst (p : α → Bool) (f : α → α) : List α → Option α × List α
  | [] => (none, [])
  | x :: xs =>
    if p x then (some (f x), f x :: xs)
    else
      let r := updateFirst p f xs
      (r.1, x :: r.2)

/-- Remove the first element satisfying p; return hit/miss with the updated
list. Mirrors findIndex + splice(index, 1). -/
def removeFirst (p : α → Bool) : List α → Bool × List α
  | [] => (false, [])
  | x :: xs =>
    if p x then (true, xs)
    else
      let r := removeFirst p xs
      (r.1, x :: r.2)

/-! ### Validation (src/utils/validation.js)

Each validator either passes or produces the GraphQLError the source
throws. `validateRequired` on fields whose Lean type is total (an Int or a
structure cannot be undefined/null) is vacuous and is represented only for
string-typed fields, where the empty string fails it. -/

/-- Character class of the regex: anything but whitespace and the at sign. -/
def emailChar (c : Char) : Bool :=
  !(c == '@') && !c.isWhitespace

/-- Split a character list at the first occurrence of ch; none when absent. -/
def breakAtChar (ch : Char) : List Char → Option (List Char × List Char)
  | [] => none
  | c :: cs =>
    if c = ch then some ([], cs)
    else (breakAtChar ch cs).map (fun pr => (c :: pr.1, pr.2))

/-- Test of the anchored regex in validateEmail: local and domain parts are
nonempty runs of non-whitespace non-at characters separated by the single
at sign, and the domain contains an interior dot with nonempty runs on both
sides. -/
def emailRegexTest (s : String) : Bool :=
  match breakAtChar '@' s.toList with
  | none => false
  | some pr =>
    let loc := pr.1
    let dom := pr.2
    !loc.isEmpty && loc.all emailChar &&
    !dom.isEmpty && dom.all emailChar &&
    ((dom.drop 1).dropLast.contains '.')

def validateEmail (email : String) : Except GqlError Unit :=
  if emailRegexTest email then .ok ()
  else .error ⟨"Invalid email format", "VALIDATION_ERROR"⟩

def validatePassword (password : String) : Except GqlError Unit :=
  if password.length < 6 then
    .error ⟨"Password must be at least 6 characters long", "VALIDATION_ERROR"⟩
  else .ok ()

def validateUsername (username : String) : Except GqlError Unit :=
  if username.length < 3 then
    .error ⟨"Username must be at least 3 characters long", "VALIDATION_ERROR"⟩
  else .ok ()

def validatePrice (price : Int) : Except GqlError Unit :=
  if price ≤ 0 then
    .error ⟨"Price must be greater than 0", "VALIDATION_ERROR"⟩
  else .ok ()

/-- Number.isInteger is automatic for Int; only positivity remains. -/
def validateQuantity (quantity : Int) : Except GqlError Unit :=
  if quantity ≤ 0 then
    .error ⟨"Quantity must be a positive integer", "VALIDATION_ERROR"⟩
  else .ok ()

def validStatuses : List String :=
  ["PENDING", "CONFIRMED", "SHIPPED", "DELIVERED", "CANCELLED"]

def validateOrderStatus (status : String) : Except GqlError Unit :=
  if validStatuses.contains status then .ok ()
  else
    .error ⟨"Invalid status. Must be: PENDING, CONFIRMED, SHIPPED, DELIVERED, CANCELLED",
            "VALIDATION_ERROR"⟩

/-- validateRequired for a string-typed field: undefined/null/empty all fail;
for a present Lean String only the empty string can. -/
def validateRequiredStr (value : String) (fieldName : String) : Except GqlError Unit :=
  if value = "" then .error ⟨fieldName ++ " is required", "VALIDATION_ERROR"⟩
  else .ok ()

/-! ### Auth guard (src/utils/auth.js) and createContext (server.js) -/

/-- jwt.sign of the identity claims with a 24-hour expiry. -/
def generateToken (secret : String) (now : Nat) (u : User) : SignedJwt :=
  ⟨⟨u.id, u.email, u.username, now + 24 * 3600⟩, secret⟩

/-- jwt.verify: stateless signature plus expiry check; no store access. -/
def jwtVerify (secret : String) (now : Nat) (t : SignedJwt) : Option JwtPayload :=
  if t.secret = secret ∧ now < t.payload.exp then some t.payload else none

/-- createContext from server.js: derives the caller identity from the
bearer token alone. The data store (with its session set) is in scope in
the server module but is never consulted, so it is an explicitly unused
argument here. -/
def deriveIdentity (secret : String) (now : Nat) (_store : DataStore)
    (token : Option SignedJwt) : Option JwtPayload :=
  match token with
  | none => none
  | some t => jwtVerify secret now t

def authRequiredError : GqlError := ⟨"Authentication required", "UNAUTHENTICATED"⟩

def accessDeniedError : GqlError := ⟨"Access denied", "FORBIDDEN"⟩

def requireAuth (ctx : Context) : Except GqlError JwtPayload :=
  match ctx.user with
  | none => .error authRequiredError
  | some u => .ok u

def requireOwnership (ctx : Context) (resourceUserId : Nat) : Except GqlError JwtPayload :=
  match requireAuth ctx with
  | .error e => .error e
  | .ok u =>
    if u.id ≠ resourceUserId then .error accessDeniedError
    else .ok u

/-! ### DataStore methods (src/data/store.js)

Mutating methods take and return the store; the clock `now` stands in for
new Date(). Partial-update inputs are structures of Options: an absent key
in the JS update object is none, a present key is some. -/

def DataStore.getUserById (s : DataStore) (id : Nat) : Option User :=
  s.users.find? (fun u => u.id == id)

def DataStore.getUserByEmail (s : DataStore) (email : String) : Option User :=
  s.users.find? (fun u => u.email == email)

/-- Partial fields accepted by updateUser (UserUpdateInput). -/
structure UserUpdates where
  username : Option String
  email : Option String
  password : Option String
  deriving DecidableEq, Repr

def applyUserUpdates (u : User) (upd : UserUpdates) (now : Nat) : User :=
  { u with
    username := upd.username.getD u.username,
    email := upd.email.getD u.email,
    password := upd.password.getD u.password,
    updatedAt := now }

def DataStore.createUser (s : DataStore) (username email password : String)
    (now : Nat) : User × DataStore :=
  let u : User := ⟨s.nextUserId, username, email, password, now, now⟩
  (u, { s with users := s.users ++ [u], nextUserId := s.nextUserId + 1 })

def DataStore.updateUser (s : DataStore) (id : Nat) (upd : UserUpdates)
    (now : Nat) : Option User × DataStore :=
  let r := updateFirst (fun u => u.id == id) (fun u => applyUserUpdates u upd now) s.users
  (r.1, { s with users := r.2 })

def DataStore.deleteUser (s : DataStore) (id : Nat) : Bool × DataStore :=
  let r := removeFirst (fun u => u.id == id) s.users
  (r.1, { s with users := r.2 })

def DataStore.getListingById (s : DataStore) (id : Nat) : Option Listing :=
  s.listings.find? (fun l => l.id == id)

/-- Partial fields accepted by updateListing (ListingUpdateInput). -/
structure ListingUpdates where
  title : Option String
  description : Option String
  price : Option Int
  category : Option String
  condition : Option String
  location : Option String
  deriving DecidableEq, Repr

def applyListingUpdates (l : Listing) (upd : ListingUpdates) (now : Nat) : Listing :=
  { l with
    title := upd.title.getD l.title,
    description := upd.description.getD l.description,
    price := upd.price.getD l.price,
    category := upd.category.getD l.category,
    condition := upd.condition.getD l.condition,
    location := upd.location.getD l.location,
    updatedAt := now }

def DataStore.updateListing (s : DataStore) (id : Nat) (upd : ListingUpdates)
    (now : Nat) : Option Listing × DataStore :=
  let r := updateFirst (fun l => l.id == id) (fun l => applyListingUpdates l upd now) s.listings
  (r.1, { s with listings := r.2 })

def DataStore.deleteListing (s : DataStore) (id : Nat) : Bool × DataStore :=
  let r := removeFirst (fun l => l.id == id) s.listings
  (r.1, { s with listings := r.2 })

/-- Order creation data passed by the createOrder resolver; the store adds
the id, PENDING status and timestamps. -/
structure OrderData where
  userId : Nat
  listingId : Nat
  quantity : Int
  totalPrice : Int
  shippingAddress : Address
  buyerNotes : Option String
  deriving DecidableEq, Repr

def DataStore.createOrder (s : DataStore) (d : OrderData) (now : Nat) :
    Order × DataStore :=
  let o : Order :=
    { id := s.nextOrderId, userId := d.userId, listingId := d.listingId,
      quantity := d.quantity, totalPrice := d.totalPrice, status := "PENDING",
      shippingAddress := d.shippingAddress, buyerNotes := d.buyerNotes,
      cancelledAt := none, cancelReason := none, createdAt := now, updatedAt := now }
  (o, { s with orders := s.orders ++ [o], nextOrderId := s.nextOrderId + 1 })

def DataStore.getOrderById (s : DataStore) (id : Nat) : Option Order :=
  s.orders.find? (fun o => o.id == id)

/-- Filter accepted by getOrders (OrderFilterInput). -/
structure OrderFilter where
  userId : Option Nat
  status : Option String
  deriving DecidableEq, Repr

/-- Truthiness-faithful `if (filter.userId)` / `if (filter.status)` filter
chain of getOrders: 0 and the empty string are falsy and impose no
constraint. -/
def applyOrderFilter (f : OrderFilter) (orders : List Order) : List Order :=
  let afterUser :=
    match f.userId with
    | some uid => if uid = 0 then orders else orders.filter (fun o => o.userId == uid)
    | none => orders
  match f.status with
  | some st => if st = "" then afterUser else afterUser.filter (fun o => o.status == st)
  | none => afterUser

structure Pagination where
  page : Nat
  limit : Nat
  deriving DecidableEq, Repr

structure PageInfo where
  total : Nat
  pages : Nat
  currentPage : Nat
  hasNextPage : Bool
  hasPreviousPage : Bool
  deriving DecidableEq, Repr

structure PaginatedOrders where
  orders : List Order
  pagination : PageInfo
  deriving DecidableEq, Repr

/-- Math.ceil(a / b) for natural a and positive b. -/
def jsCeilDiv (a b : Nat) : Nat := (a + b - 1) / b

/-- getOrders: filter, then 1-indexed pagination by slice(offset, offset+limit).
Nat subtraction in the offset agrees with the JS arithmetic whenever
page is at least 1, the domain every claim about pagination addresses. -/
def DataStore.getOrders (s : DataStore) (f : OrderFilter) (pag : Pagination) :
    PaginatedOrders :=
  let filteredOrders := applyOrderFilter f s.orders
  let total := filteredOrders.length
  let pages := jsCeilDiv total pag.limit
  let offset := (pag.page - 1) * pag.limit
  { orders := (filteredOrders.drop offset).take pag.limit,
    pagination :=
      { total := total, pages := pages, currentPage := pag.page,
        hasNextPage := decide (pag.page < pages),
        hasPreviousPage := decide (1 < pag.page) } }

/-- Partial fields reaching DataStore.updateOrder: the resolver forwards the
OrderUpdateInput keys and may add a recomputed totalPrice. -/
structure OrderUpdates where
  quantity : Option Int
  totalPrice : Option Int
  shippingAddress : Option Address
  buyerNotes : Option String
  deriving DecidableEq, Repr

def applyOrderUpdates (o : Order) (upd : OrderUpdates) (now : Nat) : Order :=
  { o with
    quantity := upd.quantity.getD o.quantity,
    totalPrice := upd.totalPrice.getD o.totalPrice,
    shippingAddress := upd.shippingAddress.getD o.shippingAddress,
    buyerNotes := match upd.buyerNotes with | some n => some n | none => o.buyerNotes,
    updatedAt := now }

def DataStore.updateOrder (s : DataStore) (id : Nat) (upd : OrderUpdates)
    (now : Nat) : Option Order × DataStore :=
  let r := updateFirst (fun o => o.id == id) (fun o => applyOrderUpdates o upd now) s.orders
  (r.1, { s with orders := r.2 })

def DataStore.deleteOrder (s : DataStore) (id : Nat) : Bool × DataStore :=
  let r := removeFirst (fun o => o.id == id) s.orders
  (r.1, { s with orders := r.2 })

/-- cancelReason || 'No reason provided': undefined, null and the empty
string all fall back to the default. -/
def jsOrDefault (v : Option String) (d : String) : String :=
  match v with
  | none => d
  | some x => if x = "" then d else x

/-- The record overwrite cancelOrder applies to the matched order. -/
def cancelUpdate (cancelReason : Option String) (now : Nat) (o : Order) : Order :=
  { o with status := "CANCELLED", cancelledAt := some now,
           cancelReason := some (jsOrDefault cancelReason "No reason provided"),
           updatedAt := now }

def DataStore.cancelOrder (s : DataStore) (id : Nat) (cancelReason : Option String)
    (now : Nat) : Option Order × DataStore :=
  let r := updateFirst (fun o => o.id == id) (cancelUpdate cancelReason now) s.orders
  (r.1, { s with orders := r.2 })

def DataStore.updateOrderStatus (s : DataStore) (id : Nat) (status : String)
    (now : Nat) : Option Order × DataStore :=
  let r := updateFirst (fun o => o.id == id)
    (fun o => { o with status := status, updatedAt := now }) s.orders
  (r.1, { s with orders := r.2 })

def DataStore.addSession (s : DataStore) (token : SignedJwt) : DataStore :=
  if s.sessions.contains token then s
  else { s with sessions := s.sessions ++ [token] }

def DataStore.removeSession (s : DataStore) (token : SignedJwt) : DataStore :=
  { s with sessions := s.sessions.filter (fun t => t ≠ token) }

def DataStore.isValidSession (s : DataStore) (token : SignedJwt) : Bool :=
  s.sessions.contains token

/-! ### Resolvers

Each resolver is a function of the request context, its arguments, the
clock and the store. Mutations return the Except result paired with the
store after the call; a thrown error earlier in the body returns the store
as it was at the throw. -/

namespace Resolvers

def notFoundListing : GqlError := ⟨"Listing not found", "NOT_FOUND"⟩

def notFoundOrder : GqlError := ⟨"Order not found", "NOT_FOUND"⟩

def notFoundUser : GqlError := ⟨"User not found", "NOT_FOUND"⟩

structure DeleteResult where
  message : String
  deriving DecidableEq, Repr

/-- listingResolvers.Mutation.updateListing. -/
def updateListing (ctx : Context) (id : Nat) (input : ListingUpdates)
    (now : Nat) (s : DataStore) : Except GqlError Listing × DataStore :=
  match requireAuth ctx with
  | .error e => (.error e, s)
  | .ok _ =>
    match s.getListingById id with
    | none => (.error notFoundListing, s)
    | some existingListing =>
      match requireOwnership ctx existingListing.userId with
      | .error e => (.error e, s)
      | .ok _ =>
        match input.price with
        | some p =>
          match validatePrice p with
          | .error e => (.error e, s)
          | .ok _ =>
            let r := s.updateListing id input now
            match r.1 with
            | some l => (.ok l, r.2)
            | none => (.error ⟨"", "INTERNAL_ERROR"⟩, r.2)
        | none =>
          let r := s.updateListing id input now
          match r.1 with
          | some l => (.ok l, r.2)
          | none => (.error ⟨"", "INTERNAL_ERROR"⟩, r.2)

/-- listingResolvers.Mutation.deleteListing. -/
def deleteListing (ctx : Context) (id : Nat) (s : DataStore) :
    Except GqlError DeleteResult × DataStore :=
  match requireAuth ctx with
  | .error e => (.error e, s)
  | .ok _ =>
    match s.getListingById id with
    | none => (.error notFoundListing, s)
    | some existingListing =>
      match requireOwnership ctx existingListing.userId with
      | .error e => (.error e, s)
      | .ok _ =>
        let r := s.deleteListing id
        if r.1 then (.ok ⟨"Listing deleted successfully"⟩, r.2)
        else (.error ⟨"Failed to delete listing", "INTERNAL_ERROR"⟩, r.2)

/-- listingResolvers.Listing.user field resolver. -/
def listingUserField (parent : Listing) (s : DataStore) : Option UserView :=
  match s.getUserById parent.userId with
  | some u => some (stripPassword u)
  | none => none

/-- Input of createOrder (OrderInput); listingId, quantity and
shippingAddress are schema-required, buyerNotes optional. -/
structure OrderInput where
  listingId : Nat
  quantity : Int
  shippingAddress : Address
  buyerNotes : Option String
  deriving DecidableEq, Repr

/-- orderResolvers.Mutation.createOrder. validateRequired on the non-null
Int and Address arguments is vacuous here (see validation section). -/
def createOrder (ctx : Context) (input : OrderInput) (now : Nat)
    (s : DataStore) : Except GqlError Order × DataStore :=
  match requireAuth ctx with
  | .error e => (.error e, s)
  | .ok user =>
    match validateQuantity input.quantity with
    | .error e => (.error e, s)
    | .ok _ =>
      match s.getListingById input.listingId with
      | none => (.error notFoundListing, s)
      | some listing =>
        let totalPrice := listing.price * input.quantity
        let r := s.createOrder
          ⟨user.id, input.listingId, input.quantity, totalPrice,
           input.shippingAddress, input.buyerNotes⟩ now
        (.ok r.1, r.2)

/-- Input of updateOrder (OrderUpdateInput). -/
structure OrderUpdateInput where
  quantity : Option Int
  shippingAddress : Option Address
  buyerNotes : Option String
  deriving DecidableEq, Repr

/-- orderResolvers.Mutation.updateOrder: on a quantity change the total
price is recomputed from the listing fetched again now; when that listing
no longer exists the totalPrice key is simply not added. -/
def updateOrder (ctx : Context) (id : Nat) (input : OrderUpdateInput)
    (now : Nat) (s : DataStore) : Except GqlError Order × DataStore :=
  match requireAuth ctx with
  | .error e => (.error e, s)
  | .ok _ =>
    match s.getOrderById id with
    | none => (.error notFoundOrder, s)
    | some existingOrder =>
      match requireOwnership ctx existingOrder.userId with
      | .error e => (.error e, s)
      | .ok _ =>
        match input.quantity with
        | some q =>
          match validateQuantity q with
          | .error e => (.error e, s)
          | .ok _ =>
            let totalPrice :=
              match s.getListingById existingOrder.listingId with
              | some listing => some (listing.price * q)
              | none => none
            let upd : OrderUpdates :=
              ⟨input.quantity, totalPrice, input.shippingAddress, input.buyerNotes⟩
            let r := s.updateOrder id upd now
            match r.1 with
            | some o => (.ok o, r.2)
            | none => (.error ⟨"", "INTERNAL_ERROR"⟩, r.2)
        | none =>
          let upd : OrderUpdates :=
            ⟨none, none, input.shippingAddress, input.buyerNotes⟩
          let r := s.updateOrder id upd now
          match r.1 with
          | some o => (.ok o, r.2)
          | none => (.error ⟨"", "INTERNAL_ERROR"⟩, r.2)

/-- orderResolvers.Mutation.deleteOrder. -/
def deleteOrder (ctx : Context) (id : Nat) (s : DataStore) :
    Except GqlError DeleteResult × DataStore :=
  match requireAuth ctx with
  | .error e => (.error e, s)
  | .ok _ =>
    match s.getOrderById id with
    | none => (.error notFoundOrder, s)
    | some existingOrder =>
      match requireOwnership ctx existingOrder.userId with
      | .error e => (.error e, s)
      | .ok _ =>
        let r := s.deleteOrder id
        if r.1 then (.ok ⟨"Order deleted successfully"⟩, r.2)
        else (.error ⟨"Failed to delete order", "INTERNAL_ERROR"⟩, r.2)

structure CancelResult where
  message : String
  order : Option Order
  deriving DecidableEq, Repr

def alreadyCancelledError : GqlError :=
  ⟨"Order is already cancelled", "INVALID_OPERATION"⟩

def cancelDeliveredError : GqlError :=
  ⟨"Cannot cancel delivered order", "INVALID_OPERATION"⟩

/-- orderResolvers.Mutation.cancelOrder. -/
def cancelOrder (ctx : Context) (id : Nat) (cancelReason : Option String)
    (now : Nat) (s : DataStore) : Except GqlError CancelResult × DataStore :=
  match requireAuth ctx with
  | .error e => (.error e, s)
  | .ok _ =>
    match s.getOrderById id with
    | none => (.error notFoundOrder, s)
    | some existingOrder =>
      match requireOwnership ctx existingOrder.userId with
      | .error e => (.error e, s)
      | .ok _ =>
        if existingOrder.status = "CANCELLED" then
          (.error alreadyCancelledError, s)
        else if existingOrder.status = "DELIVERED" then
          (.error cancelDeliveredError, s)
        else
          let r := s.cancelOrder id cancelReason now
          (.ok ⟨"Order cancelled successfully", r.1⟩, r.2)

/-- orderResolvers.Mutation.updateOrderStatus: ownership plus enum
validation only; the store then overwrites the status unconditionally. -/
def updateOrderStatus (ctx : Context) (id : Nat) (status : String)
    (now : Nat) (s : DataStore) : Except GqlError Order × DataStore :=
  match requireAuth ctx with
  | .error e => (.error e, s)
  | .ok _ =>
    match s.getOrderById id with
    | none => (.error notFoundOrder, s)
    | some existingOrder =>
      match requireOwnership ctx existingOrder.userId with
      | .error e => (.error e, s)
      | .ok _ =>
        match validateOrderStatus status with
        | .error e => (.error e, s)
        | .ok _ =>
          let r := s.updateOrderStatus id status now
          match r.1 with
          | some o => (.ok o, r.2)
          | none => (.error ⟨"", "INTERNAL_ERROR"⟩, r.2)

def ordersAccessDenied : GqlError := ⟨"Access denied", "FORBIDDEN"⟩

/-- orderResolvers.Query.orders: default the userId filter to the caller
(JS truthiness: an explicit 0 also defaults), forbid an explicit foreign
userId, then delegate to DataStore.getOrders with default pagination. -/
def ordersQuery (ctx : Context) (filter : Option OrderFilter)
    (pagination : Option Pagination) (s : DataStore) :
    Except GqlError PaginatedOrders :=
  match requireAuth ctx with
  | .error e => .error e
  | .ok user =>
    let requestedUid :=
      match filter with
      | some f => f.userId
      | none => none
    let effectiveUid :=
      match requestedUid with
      | some uid => if uid = 0 then user.id else uid
      | none => user.id
    let fstatus :=
      match filter with
      | some f => f.status
      | none => none
    if requestedUid.any (fun uid => uid ≠ 0 && uid ≠ user.id) then
      .error ordersAccessDenied
    else
      .ok (s.getOrders ⟨some effectiveUid, fstatus⟩ (pagination.getD ⟨1, 10⟩))

/-- orderResolvers.Order.user field resolver. -/
def orderUserField (parent : Order) (s : DataStore) : Option UserView :=
  match s.getUserById parent.userId with
  | some u => some (stripPassword u)
  | none => none

/-- userResolvers.Query.user. -/
def userQuery (id : Nat) (s : DataStore) : Except GqlError UserView :=
  match s.getUserById id with
  | none => .error notFoundUser
  | some u => .ok (stripPassword u)

structure UserInput where
  username : String
  email : String
  password : String
  deriving DecidableEq, Repr

def emailConflictError : GqlError := ⟨"Email already exists", "CONFLICT"⟩

/-- userResolvers.Mutation.createUser, parametric in the bcrypt hash. -/
def createUser (hash : String → String) (input : UserInput) (now : Nat)
    (s : DataStore) : Except GqlError UserView × DataStore :=
  match validateRequiredStr input.username "username" with
  | .error e => (.error e, s)
  | .ok _ =>
  match validateRequiredStr input.email "email" with
  | .error e => (.error e, s)
  | .ok _ =>
  match validateRequiredStr input.password "password" with
  | .error e => (.error e, s)
  | .ok _ =>
  match validateUsername input.username with
  | .error e => (.error e, s)
  | .ok _ =>
  match validateEmail input.email with
  | .error e => (.error e, s)
  | .ok _ =>
  match validatePassword input.password with
  | .error e => (.error e, s)
  | .ok _ =>
  match s.getUserByEmail input.email with
  | some _ => (.error emailConflictError, s)
  | none =>
    let r := s.createUser input.username input.email (hash input.password) now
    (.ok (stripPassword r.1), r.2)

/-- The email block of updateUser: a truthy provided email is validated
for format and for a conflict with another existing account. -/
def userEmailCheck (iem : Option String) (id : Nat) (s : DataStore) :
    Except GqlError Unit :=
  match iem with
  | some em =>
    if em ≠ "" then
      match validateEmail em with
      | .error e => .error e
      | .ok _ =>
        match s.getUserByEmail em with
        | some other => if other.id ≠ id then .error emailConflictError else .ok ()
        | none => .ok ()
    else .ok ()
  | none => .ok ()

/-- The password block of updateUser: a truthy provided password is length
validated. -/
def userPasswordCheck (ipw : Option String) : Except GqlError Unit :=
  match ipw with
  | some pw => if pw ≠ "" then validatePassword pw else .ok ()
  | none => .ok ()

/-- userResolvers.Mutation.updateUser: requireOwnership against the target
id comes FIRST, before the existence lookup. Validation runs only on truthy
(nonempty) provided strings, as in the JS `if (input.username)` guards; a
truthy provided password is hashed before the merge. -/
def updateUser (hash : String → String) (ctx : Context) (id : Nat)
    (input : UserUpdates) (now : Nat) (s : DataStore) :
    Except GqlError UserView × DataStore :=
  match requireOwnership ctx id with
  | .error e => (.error e, s)
  | .ok _ =>
  match s.getUserById id with
  | none => (.error notFoundUser, s)
  | some _ =>
  match input.username with
  | some un =>
    if un ≠ "" then
      match validateUsername un with
      | .error e => (.error e, s)
      | .ok _ => updateUserChecked hash ctx id input now s
    else updateUserChecked hash ctx id input now s
  | none => updateUserChecked hash ctx id input now s
where
  /-- Continuation after the username check: email and password checks,
  then the store update and password strip. -/
  updateUserChecked (hash : String → String) (_ctx : Context) (id : Nat)
      (input : UserUpdates) (now : Nat) (s : DataStore) :
      Except GqlError UserView × DataStore :=
    match userEmailCheck input.email id s with
    | .error e => (.error e, s)
    | .ok _ =>
      match userPasswordCheck input.password with
      | .error e => (.error e, s)
      | .ok _ =>
        let updates : UserUpdates :=
          { input with
            password :=
              match input.password with
              | some pw => if pw ≠ "" then some (hash pw) else some pw
              | none => none }
        let r := s.updateUser id updates now
        match r.1 with
        | some u => (.ok (stripPassword u), r.2)
        | none => (.error ⟨"", "INTERNAL_ERROR"⟩, r.2)

/-- userResolvers.Mutation.deleteUser: ownership first, then existence. -/
def deleteUser (ctx : Context) (id : Nat) (s : DataStore) :
    Except GqlError DeleteResult × DataStore :=
  match requireOwnership ctx id with
  | .error e => (.error e, s)
  | .ok _ =>
  match s.getUserById id with
  | none => (.error notFoundUser, s)
  | some _ =>
    let r := s.deleteUser id
    if r.1 then (.ok ⟨"User deleted successfully"⟩, r.2)
    else (.error ⟨"Failed to delete user", "INTERNAL_ERROR"⟩, r.2)

def invalidCredentialsError : GqlError :=
  ⟨"Invalid credentials", "AUTHENTICATION_ERROR"⟩

structure LoginInput where
  email : String
  password : String
  deriving DecidableEq, Repr

structure AuthPayload where
  token : SignedJwt
  user : UserView
  deriving DecidableEq, Repr

/-- authResolvers.Mutation.login, parametric in bcrypt.compare and the
signing secret; on success signs a token, records the session and returns
the user stripped of the password hash. -/
def login (bcompare : String → String → Bool) (secret : String)
    (input : LoginInput) (now : Nat) (s : DataStore) :
    Except GqlError AuthPayload × DataStore :=
  match validateRequiredStr input.email "email" with
  | .error e => (.error e, s)
  | .ok _ =>
  match validateRequiredStr input.password "password" with
  | .error e => (.error e, s)
  | .ok _ =>
  match validateEmail input.email with
  | .error e => (.error e, s)
  | .ok _ =>
  match s.getUserByEmail input.email with
  | none => (.error invalidCredentialsError, s)
  | some user =>
    if bcompare input.password user.password then
      let token := generateToken secret now user
      (.ok ⟨token, stripPassword user⟩, s.addSession token)
    else
      (.error invalidCredentialsError, s)

structure LogoutResult where
  message : String
  deriving DecidableEq, Repr

/-- authResolvers.Mutation.logout: requires auth, then removes the context
token (when present) from the session set. -/
def logout (ctx : Context) (s : DataStore) :
    Except GqlError LogoutResult × DataStore :=
  match requireAuth ctx with
  | .error e => (.error e, s)
  | .ok _ =>
    match ctx.token with
    | some t => (.ok ⟨"Logout successful"⟩, s.removeSession t)
    | none => (.ok ⟨"Logout successful"⟩, s)

end Resolvers

/-! ### Concrete data for witnesses and counterexamples -/

def wAddress : Address := ⟨"123 Main St", "New York", "NY", "10001", "USA"⟩

def wAlice : User := ⟨1, "alice_w", "alice@example.com", "hashA", 0, 0⟩

def wBob : User := ⟨2, "bob_smith", "bob@example.com", "hashB", 0, 0⟩

def wListing : Listing :=
  ⟨1, "iPhone", "Brand new", 100, "electronics", "NEW", "NY", [], 1, 0, 0⟩

def wBobPayload : JwtPayload := ⟨2, "bob@example.com", "bob_smith", 1000000⟩

def wBobCtx : Context := ⟨some wBobPayload, none⟩

def wAlicePayload : JwtPayload := ⟨1, "alice@example.com", "alice_w", 1000000⟩

def wAliceCtx : Context := ⟨some wAlicePayload, none⟩

def wStoreBase : DataStore := ⟨[wAlice, wBob], [wListing], [], [], 3, 2, 1⟩

def wOrderPending : Order :=
  ⟨1, 2, 1, 1, 100, "PENDING", wAddress, none, none, none, 0, 0⟩

def wOrderCancelled : Order := { wOrderPending with status := "CANCELLED" }

def wStorePending : DataStore :=
  ⟨[wAlice, wBob], [wListing], [wOrderPending], [], 3, 2, 2⟩

def wStoreCancelled : DataStore :=
  ⟨[wAlice, wBob], [wListing], [wOrderCancelled], [], 3, 2, 2⟩

/-- Stand-in for bcrypt.compare at witness instantiation points. -/
def wCompare (plain hashv : String) : Bool := plain == hashv

/-- The reachable run refuting one-directionality: create an order (status
PENDING), move it to CANCELLED via updateOrderStatus, then move it back to
PENDING via another owner-authenticated updateOrderStatus call. -/
def c1AfterCreate : Except GqlError Order × DataStore :=
  Resolvers.createOrder wBobCtx ⟨1, 2, wAddress, none⟩ 10 wStoreBase

def c1AfterCancel : Except GqlError Order × DataStore :=
  Resolvers.updateOrderStatus wBobCtx 1 "CANCELLED" 11 c1AfterCreate.2

def c1AfterRevert : Except GqlError Order × DataStore :=
  Resolvers.updateOrderStatus wBobCtx 1 "PENDING" 12 c1AfterCancel.2

/-! ### Helper lemmas about the array-update helpers -/

theorem updateFirst_fst_eq (p : α → Bool) (f : α → α) (l : List α) :
    (updateFirst p f l).1 = (l.find? p).map f := by
  induction l with
  | nil => rfl
  | cons x xs ih =>
    by_cases h : p x <;> simp [updateFirst, List.find?_cons, h, ih]

theorem updateFirst_snd_find? (p : α → Bool) (f : α → α)
    (hpf : ∀ a, p (f a) = p a) (l : List α) :
    ((updateFirst p f l).2).find? p = (l.find? p).map f := by
  induction l with
  | nil => rfl
  | cons x xs ih =>
    by_cases h : p x
    · simp [updateFirst, h, List.find?_cons, hpf x]
    · simp [updateFirst, h, List.find?_cons, ih]

/-- Claim C1: the claim states that order status transitions are
one-directional and CANCELLED terminal under every operation sequence,
explicitly including owner-authenticated updateOrderStatus calls with any
valid enum value. The code refutes it: starting from a base store, an order
created PENDING is moved to CANCELLED and then moved back out of CANCELLED
to PENDING by a successful updateOrderStatus call. -/
theorem C1_counterexample :
    Except.map Order.status c1AfterCancel.1 = .ok "CANCELLED" ∧
    Except.map Order.status c1AfterRevert.1 = .ok "PENDING" ∧
    (c1AfterRevert.2.getOrderById 1).map Order.status = some "PENDING" :=
  ⟨rfl, rfl, rfl⟩

/-- Claim C1 (amended): updateOrderStatus does not restrict the direction of
the transition. For every owner-authenticated call on an existing order with
any valid enum value, it succeeds and overwrites the status with that value
unconditionally — including moves backwards along the chain and moves out of
CANCELLED. Only cancelOrder enforces terminality, and only for cancellation. -/
theorem C1_amended_updateOrderStatus (s : DataStore) (ctx : Context)
    (u : JwtPayload) (id : Nat) (st : String) (now : Nat) (o : Order)
    (hu : ctx.user = some u) (ho : s.getOrderById id = some o)
    (hown : u.id = o.userId) (hst : st ∈ validStatuses) :
    ∃ o2, Resolvers.updateOrderStatus ctx id st now s
        = (.ok o2, { s with orders := (updateFirst (fun a => a.id == id)
            (fun a => { a with status := st, updatedAt := now }) s.orders).2 }) ∧
      o2.status = st ∧
      ((Resolvers.updateOrderStatus ctx id st now s).2).getOrderById id = some o2 := by
  have ho' : s.orders.find? (fun a => a.id == id) = some o := ho
  have hfst := updateFirst_fst_eq (fun a : Order => a.id == id)
    (fun a => { a with status := st, updatedAt := now }) s.orders
  have hsnd := updateFirst_snd_find? (fun a : Order => a.id == id)
    (fun a => { a with status := st, updatedAt := now }) (fun a => rfl) s.orders
  rw [ho'] at hfst hsnd
  refine ⟨{ o with status := st, updatedAt := now }, ?_, rfl, ?_⟩ <;>
    simp [Resolvers.updateOrderStatus, requireAuth, requireOwnership, hu, ho',
          hown, validateOrderStatus, hst,
          DataStore.updateOrderStatus, DataStore.getOrderById, hfst, hsnd]

/-- Witness for C1_amended_updateOrderStatus on a concrete cancelled order
being moved back to PENDING. -/
theorem C1_amended_witness :
    ∃ o2, Resolvers.updateOrderStatus wBobCtx 1 "PENDING" 7 wStoreCancelled
        = (.ok o2, { wStoreCancelled with
            orders := (updateFirst (fun a => a.id == 1)
              (fun a => { a with status := "PENDING", updatedAt := 7 })
              wStoreCancelled.orders).2 }) ∧
      o2.status = "PENDING" ∧
      ((Resolvers.updateOrderStatus wBobCtx 1 "PENDING" 7 wStoreCancelled).2).getOrderById 1
        = some o2 :=
  C1_amended_updateOrderStatus wStoreCancelled wBobCtx wBobPayload 1 "PENDING" 7
    wOrderCancelled rfl rfl rfl (by decide)

/-- Claim C2: for an existing order and owner-authenticated caller,
cancelOrder rejects CANCELLED and DELIVERED orders with the
INVALID_OPERATION domain error and leaves the store (hence the order)
unchanged — in particular a second cancel of an already-CANCELLED order is
a rejection, never a silent success — and otherwise cancels: status becomes
CANCELLED, the cancellation time is stamped, and the reason is the supplied
one or the default when none (or an empty string) is given. -/
theorem C2_cancelOrder (s : DataStore) (ctx : Context) (u : JwtPayload)
    (id : Nat) (reason : Option String) (now : Nat) (o : Order)
    (hu : ctx.user = some u) (ho : s.getOrderById id = some o)
    (hown : u.id = o.userId) :
    (o.status = "CANCELLED" →
      Resolvers.cancelOrder ctx id reason now s
        = (.error Resolvers.alreadyCancelledError, s)) ∧
    (o.status = "DELIVERED" →
      Resolvers.cancelOrder ctx id reason now s
        = (.error Resolvers.cancelDeliveredError, s)) ∧
    (o.status ≠ "CANCELLED" → o.status ≠ "DELIVERED" →
      ∃ o2, (Resolvers.cancelOrder ctx id reason now s).1
          = .ok ⟨"Order cancelled successfully", some o2⟩ ∧
        o2.status = "CANCELLED" ∧ o2.cancelledAt = some now ∧
        o2.cancelReason = some (jsOrDefault reason "No reason provided") ∧
        ((Resolvers.cancelOrder ctx id reason now s).2).getOrderById id = some o2) := by
  have ho' : s.orders.find? (fun a => a.id == id) = some o := ho
  refine ⟨?_, ?_, ?_⟩
  · intro hst
    simp [Resolvers.cancelOrder, requireAuth, requireOwnership, hu, ho, hown, hst]
  · intro hst
    simp [Resolvers.cancelOrder, requireAuth, requireOwnership, hu, ho, hown, hst]
  · intro h1 h2
    have hfst := updateFirst_fst_eq (fun a : Order => a.id == id)
      (cancelUpdate reason now) s.orders
    have hsnd := updateFirst_snd_find? (fun a : Order => a.id == id)
      (cancelUpdate reason now) (fun a => rfl) s.orders
    rw [ho'] at hfst hsnd
    refine ⟨cancelUpdate reason now o, ?_, rfl, rfl, rfl, ?_⟩ <;>
      simp [Resolvers.cancelOrder, requireAuth, requireOwnership, hu, ho, ho', hown,
            h1, h2, DataStore.cancelOrder, DataStore.getOrderById, hfst, hsnd]

/-- Witness for C2_cancelOrder: cancelling the already-cancelled concrete
order is the INVALID_OPERATION rejection with the store untouched. -/
theorem C2_cancelOrder_witness :
    Resolvers.cancelOrder wBobCtx 1 none 5 wStoreCancelled
      = (.error Resolvers.alreadyCancelledError, wStoreCancelled) :=
  (C2_cancelOrder wStoreCancelled wBobCtx wBobPayload 1 none 5 wOrderCancelled
    rfl rfl rfl).1 rfl

/-- Claim C3: an owner-authenticated updateOrder whose input carries a valid
quantity q leaves the order with totalPrice equal to the referenced
listing's price as fetched from the store at update time, times q — for
every store state in which the referenced listing is present, including
states where its price changed after the order was created (the listing L
here is arbitrary and unrelated to the order's stored totalPrice). -/
theorem C3_updateOrder_totalPrice (s : DataStore) (ctx : Context)
    (u : JwtPayload) (id : Nat) (input : Resolvers.OrderUpdateInput)
    (now : Nat) (o : Order) (L : Listing) (q : Int)
    (hu : ctx.user = some u) (ho : s.getOrderById id = some o)
    (hown : u.id = o.userId) (hq : input.quantity = some q) (hqpos : 0 < q)
    (hl : s.getListingById o.listingId = some L) :
    ∃ o2, (Resolvers.updateOrder ctx id input now s).1 = .ok o2 ∧
      o2.totalPrice = L.price * q ∧ o2.quantity = q ∧
      ((Resolvers.updateOrder ctx id input now s).2).getOrderById id = some o2 := by
  have ho' : s.orders.find? (fun a => a.id == id) = some o := ho
  have hqv : validateQuantity q = .ok () := by
    simp [validateQuantity]
    omega
  have hfst := updateFirst_fst_eq (fun a : Order => a.id == id)
    (fun a => applyOrderUpdates a
      ⟨some q, some (L.price * q), input.shippingAddress, input.buyerNotes⟩ now)
    s.orders
  have hsnd := updateFirst_snd_find? (fun a : Order => a.id == id)
    (fun a => applyOrderUpdates a
      ⟨some q, some (L.price * q), input.shippingAddress, input.buyerNotes⟩ now)
    (fun a => rfl) s.orders
  rw [ho'] at hfst hsnd
  refine ⟨applyOrderUpdates o
    ⟨some q, some (L.price * q), input.shippingAddress, input.buyerNotes⟩ now,
    ?_, ?_, ?_, ?_⟩
  · simp [Resolvers.updateOrder, requireAuth, requireOwnership, hu, ho, hown,
          hq, hqv, hl, DataStore.updateOrder, hfst]
  · simp [applyOrderUpdates]
  · simp [applyOrderUpdates]
  · simp [Resolvers.updateOrder, requireAuth, requireOwnership, hu, ho, ho', hown,
          hq, hqv, hl, DataStore.updateOrder, DataStore.getOrderById, hfst, hsnd]

/-- Witness for C3_updateOrder_totalPrice: the concrete order was created at
totalPrice 100 for quantity 1; updating the quantity to 3 against the
current listing price 100 yields totalPrice 300. -/
theorem C3_witness :
    ∃ o2, (Resolvers.updateOrder wBobCtx 1 ⟨some 3, none, none⟩ 9 wStorePending).1
        = .ok o2 ∧
      o2.totalPrice = wListing.price * 3 ∧ o2.quantity = 3 ∧
      ((Resolvers.updateOrder wBobCtx 1 ⟨some 3, none, none⟩ 9 wStorePending).2).getOrderById 1
        = some o2 :=
  C3_updateOrder_totalPrice wStorePending wBobCtx wBobPayload 1 ⟨some 3, none, none⟩
    9 wOrderPending wListing 3 rfl rfl rfl rfl (by decide) rfl

/-- Claim C4: an authenticated createOrder with a validated positive
quantity either finds the referenced listing priced P and creates an order
with totalPrice exactly P times the quantity and initial status PENDING
(the store gains exactly that one order), or the listing is absent and the
call fails with NOT_FOUND leaving the store unchanged, so no order is
created. -/
theorem C4_createOrder (s : DataStore) (ctx : Context) (u : JwtPayload)
    (input : Resolvers.OrderInput) (now : Nat)
    (hu : ctx.user = some u) (hq : 0 < input.quantity) :
    (∀ L, s.getListingById input.listingId = some L →
      ∃ o, Resolvers.createOrder ctx input now s
          = (.ok o, { s with orders := s.orders ++ [o],
                             nextOrderId := s.nextOrderId + 1 }) ∧
        o.totalPrice = L.price * input.quantity ∧ o.status = "PENDING" ∧
        o.userId = u.id ∧ o.quantity = input.quantity) ∧
    (s.getListingById input.listingId = none →
      Resolvers.createOrder ctx input now s = (.error Resolvers.notFoundListing, s)) := by
  have hqv : validateQuantity input.quantity = .ok () := by
    simp [validateQuantity]
    omega
  constructor
  · intro L hL
    refine ⟨⟨s.nextOrderId, u.id, input.listingId, input.quantity,
      L.price * input.quantity, "PENDING", input.shippingAddress,
      input.buyerNotes, none, none, now, now⟩, ?_, rfl, rfl, rfl, rfl⟩
    simp [Resolvers.createOrder, requireAuth, hu, hqv, hL, DataStore.createOrder]
  · intro hL
    simp [Resolvers.createOrder, requireAuth, hu, hqv, hL]

/-- Witness for C4_createOrder: ordering 3 units of the concrete listing
priced 100 yields totalPrice 300 and status PENDING. -/
theorem C4_witness :
    ∃ o, Resolvers.createOrder wBobCtx ⟨1, 3, wAddress, none⟩ 4 wStoreBase
        = (.ok o, { wStoreBase with orders := wStoreBase.orders ++ [o],
                                    nextOrderId := wStoreBase.nextOrderId + 1 }) ∧
      o.totalPrice = wListing.price * 3 ∧ o.status = "PENDING" ∧
      o.userId = wBobPayload.id ∧ o.quantity = 3 :=
  (C4_createOrder wStoreBase wBobCtx wBobPayload ⟨1, 3, wAddress, none⟩ 4
    rfl (by decide)).1 wListing rfl

/-- Claim C5: for updateListing, deleteListing, updateOrder, deleteOrder and
cancelOrder, existence is checked before ownership: an authenticated caller
hitting a nonexistent id gets NOT_FOUND (never FORBIDDEN), and hitting an
existing resource owned by someone else gets FORBIDDEN, with the store (and
hence the target resource) unchanged in both cases. -/
theorem C5_exists_before_ownership (s : DataStore) (ctx : Context)
    (u : JwtPayload) (hu : ctx.user = some u) :
    (∀ id input now, s.getListingById id = none →
      Resolvers.updateListing ctx id input now s = (.error Resolvers.notFoundListing, s)) ∧
    (∀ id input now l, s.getListingById id = some l → l.userId ≠ u.id →
      Resolvers.updateListing ctx id input now s = (.error accessDeniedError, s)) ∧
    (∀ id, s.getListingById id = none →
      Resolvers.deleteListing ctx id s = (.error Resolvers.notFoundListing, s)) ∧
    (∀ id l, s.getListingById id = some l → l.userId ≠ u.id →
      Resolvers.deleteListing ctx id s = (.error accessDeniedError, s)) ∧
    (∀ id input now, s.getOrderById id = none →
      Resolvers.updateOrder ctx id input now s = (.error Resolvers.notFoundOrder, s)) ∧
    (∀ id input now o, s.getOrderById id = some o → o.userId ≠ u.id →
      Resolvers.updateOrder ctx id input now s = (.error accessDeniedError, s)) ∧
    (∀ id, s.getOrderById id = none →
      Resolvers.deleteOrder ctx id s = (.error Resolvers.notFoundOrder, s)) ∧
    (∀ id o, s.getOrderById id = some o → o.userId ≠ u.id →
      Resolvers.deleteOrder ctx id s = (.error accessDeniedError, s)) ∧
    (∀ id reason now, s.getOrderById id = none →
      Resolvers.cancelOrder ctx id reason now s = (.error Resolvers.notFoundOrder, s)) ∧
    (∀ id reason now o, s.getOrderById id = some o → o.userId ≠ u.id →
      Resolvers.cancelOrder ctx id reason now s = (.error accessDeniedError, s)) := by
  refine ⟨?_, ?_, ?_, ?_, ?_, ?_, ?_, ?_, ?_, ?_⟩
  · intro id input now h
    simp [Resolvers.updateListing, requireAuth, hu, h]
  · intro id input now l h hne
    simp [Resolvers.updateListing, requireAuth, requireOwnership, hu, h, hne, hne.symm]
  · intro id h
    simp [Resolvers.deleteListing, requireAuth, hu, h]
  · intro id l h hne
    simp [Resolvers.deleteListing, requireAuth, requireOwnership, hu, h, hne, hne.symm]
  · intro id input now h
    simp [Resolvers.updateOrder, requireAuth, hu, h]
  · intro id input now o h hne
    simp [Resolvers.updateOrder, requireAuth, requireOwnership, hu, h, hne, hne.symm]
  · intro id h
    simp [Resolvers.deleteOrder, requireAuth, hu, h]
  · intro id o h hne
    simp [Resolvers.deleteOrder, requireAuth, requireOwnership, hu, h, hne, hne.symm]
  · intro id reason now h
    simp [Resolvers.cancelOrder, requireAuth, hu, h]
  · intro id reason now o h hne
    simp [Resolvers.cancelOrder, requireAuth, requireOwnership, hu, h, hne, hne.symm]

/-- Witness for C5_exists_before_ownership on concrete inputs: an absent
listing id is NOT_FOUND for an authenticated caller, and the listing owned
by the other user is FORBIDDEN, store untouched in both cases. -/
theorem C5_witness :
    Resolvers.updateListing wBobCtx 99 ⟨none, none, none, none, none, none⟩ 3 wStoreBase
      = (.error Resolvers.notFoundListing, wStoreBase) ∧
    Resolvers.deleteListing wBobCtx 1 wStoreBase
      = (.error accessDeniedError, wStoreBase) :=
  ⟨(C5_exists_before_ownership wStoreBase wBobCtx wBobPayload rfl).1 99
    ⟨none, none, none, none, none, none⟩ 3 rfl,
   (C5_exists_before_ownership wStoreBase wBobCtx wBobPayload rfl).2.2.2.1 1
    wListing rfl (by decide)⟩

/-- Claim C6: no operation that returns a user record — the user query,
createUser, updateUser, login, and the embedded user field of a listing or
an order — ever includes the stored password hash in its result, for all
inputs and store states: every returned user view has password none. -/
theorem C6_no_password_exposure :
    (∀ id s v, Resolvers.userQuery id s = .ok v → v.password = none) ∧
    (∀ hash input now s v s2,
      Resolvers.createUser hash input now s = (.ok v, s2) → v.password = none) ∧
    (∀ hash ctx id input now s v s2,
      Resolvers.updateUser hash ctx id input now s = (.ok v, s2) → v.password = none) ∧
    (∀ bcompare secret input now s p s2,
      Resolvers.login bcompare secret input now s = (.ok p, s2) →
        p.user.password = none) ∧
    (∀ parent s v, Resolvers.listingUserField parent s = some v → v.password = none) ∧
    (∀ parent s v, Resolvers.orderUserField parent s = some v → v.password = none) := by
  refine ⟨?_, ?_, ?_, ?_, ?_, ?_⟩
  · intro id s v h
    simp only [Resolvers.userQuery] at h
    split at h
    all_goals try simp_all [stripPassword]
    all_goals exact h ▸ rfl
  · intro hash input now s v s2 h
    simp only [Resolvers.createUser] at h
    repeat' split at h
    all_goals try simp_all [stripPassword]
    all_goals first
      | exact h ▸ rfl
      | exact h.1 ▸ rfl
  · intro hash ctx id input now s v s2 h
    simp only [Resolvers.updateUser, Resolvers.updateUser.updateUserChecked] at h
    repeat' split at h
    all_goals try simp_all [stripPassword]
    all_goals first
      | exact h ▸ rfl
      | exact h.1 ▸ rfl
  · intro bcompare secret input now s p s2 h
    simp only [Resolvers.login] at h
    repeat' split at h
    all_goals try simp_all [stripPassword]
    all_goals first
      | exact h ▸ rfl
      | exact h.1 ▸ rfl
  · intro parent s v h
    simp only [Resolvers.listingUserField] at h
    split at h
    all_goals try simp_all [stripPassword]
    all_goals exact h ▸ rfl
  · intro parent s v h
    simp only [Resolvers.orderUserField] at h
    split at h
    all_goals try simp_all [stripPassword]
    all_goals exact h ▸ rfl

/-- Witness for C6_no_password_exposure: the concrete user query result
carries no password. -/
theorem C6_witness : (stripPassword wAlice).password = none :=
  C6_no_password_exposure.1 1 wStoreBase (stripPassword wAlice) rfl

/-- Characterization of Math.ceil division: for positive L, jsCeilDiv N L is
the least k with N ≤ k * L. -/
theorem jsCeilDiv_spec (N L : Nat) (hL : 1 ≤ L) :
    N ≤ jsCeilDiv N L * L ∧ jsCeilDiv N L * L < N + L := by
  unfold jsCeilDiv
  rw [Nat.mul_comm]
  have hdm := Nat.div_add_mod (N + L - 1) L
  have hlt : (N + L - 1) % L < L := Nat.mod_lt _ (by omega)
  generalize hm : L * ((N + L - 1) / L) = m at hdm ⊢
  generalize hr : (N + L - 1) % L = r at hdm hlt
  omega

/-- Claim C7: the orders query pagination metadata. For a filtered
collection of size N and limit L at least 1 and page at least 1: total = N,
pages is the ceiling of N/L (characterized by the two bounds), currentPage
echoes the request, hasNextPage and hasPreviousPage are the boundary
comparisons, the returned slice is the window of at most L orders at offset
(page-1)*L, and a page beyond pages yields an empty order list with
hasNextPage false rather than an error. -/
theorem C7_pagination (s : DataStore) (f : OrderFilter) (page limit : Nat)
    (ctx : Context) (u : JwtPayload)
    (hL : 1 ≤ limit) (hp : 1 ≤ page) (hu : ctx.user = some u) :
    (Resolvers.ordersQuery ctx (some ⟨none, f.status⟩) (some ⟨page, limit⟩) s
       = .ok (s.getOrders ⟨some u.id, f.status⟩ ⟨page, limit⟩)) ∧
    ((s.getOrders f ⟨page, limit⟩).pagination.total
       = (applyOrderFilter f s.orders).length) ∧
    ((s.getOrders f ⟨page, limit⟩).pagination.pages
       = jsCeilDiv (applyOrderFilter f s.orders).length limit) ∧
    ((applyOrderFilter f s.orders).length
       ≤ (s.getOrders f ⟨page, limit⟩).pagination.pages * limit) ∧
    ((s.getOrders f ⟨page, limit⟩).pagination.pages * limit
       < (applyOrderFilter f s.orders).length + limit) ∧
    ((s.getOrders f ⟨page, limit⟩).pagination.currentPage = page) ∧
    ((s.getOrders f ⟨page, limit⟩).pagination.hasNextPage = true ↔
       page < (s.getOrders f ⟨page, limit⟩).pagination.pages) ∧
    ((s.getOrders f ⟨page, limit⟩).pagination.hasPreviousPage = true ↔ 1 < page) ∧
    ((s.getOrders f ⟨page, limit⟩).orders
       = ((applyOrderFilter f s.orders).drop ((page - 1) * limit)).take limit) ∧
    ((s.getOrders f ⟨page, limit⟩).orders.length ≤ limit) ∧
    ((s.getOrders f ⟨page, limit⟩).pagination.pages < page →
       (s.getOrders f ⟨page, limit⟩).orders = [] ∧
       (s.getOrders f ⟨page, limit⟩).pagination.hasNextPage = false) := by
  have hspec := jsCeilDiv_spec (applyOrderFilter f s.orders).length limit hL
  refine ⟨?_, rfl, rfl, hspec.1, hspec.2, rfl, ?_, ?_, rfl, ?_, ?_⟩
  · simp [Resolvers.ordersQuery, requireAuth, hu]
  · simp [DataStore.getOrders]
  · simp [DataStore.getOrders]
  · simp only [DataStore.getOrders, List.length_take]
    omega
  · intro hbeyond
    simp only [DataStore.getOrders] at hbeyond ⊢
    constructor
    · have hdrop : (applyOrderFilter f s.orders).length ≤ (page - 1) * limit := by
        have h1 : jsCeilDiv (applyOrderFilter f s.orders).length limit ≤ page - 1 := by
          omega
        calc (applyOrderFilter f s.orders).length
            ≤ jsCeilDiv (applyOrderFilter f s.orders).length limit * limit := hspec.1
          _ ≤ (page - 1) * limit := Nat.mul_le_mul_right limit h1
      rw [List.drop_eq_nil_of_le hdrop, List.take_nil]
    · simp
      omega

/-- Witness for C7_pagination on a concrete one-order store with limit 10,
page 1. -/
theorem C7_witness :
    (wStorePending.getOrders ⟨some 2, none⟩ ⟨1, 10⟩).pagination.total
      = (applyOrderFilter ⟨some 2, none⟩ wStorePending.orders).length ∧
    (wStorePending.getOrders ⟨some 2, none⟩ ⟨1, 10⟩).pagination.pages
      = jsCeilDiv (applyOrderFilter ⟨some 2, none⟩ wStorePending.orders).length 10 :=
  ⟨(C7_pagination wStorePending ⟨some 2, none⟩ 1 10 wBobCtx wBobPayload
      (by decide) (by decide) rfl).2.1,
   (C7_pagination wStorePending ⟨some 2, none⟩ 1 10 wBobCtx wBobPayload
      (by decide) (by decide) rfl).2.2.1⟩

/-- Claim C8: with a well-formed nonempty email and nonempty password,
login on a matching stored user returns the stored user (password
stripped) together with a token whose embedded identity claims id, email
and username equal that user's stored fields; login with an unknown email
and login with a known email but failing password comparison both produce
the error with code AUTHENTICATION_ERROR, and the two error values are
identical (same message), so the failure cases are indistinguishable. -/
theorem C8_login (bcompare : String → String → Bool) (secret : String)
    (input : Resolvers.LoginInput) (now : Nat) (s : DataStore)
    (hne : input.email ≠ "") (hre : emailRegexTest input.email = true)
    (hpw : input.password ≠ "") :
    (∀ u, s.getUserByEmail input.email = some u →
      bcompare input.password u.password = true →
      Resolvers.login bcompare secret input now s
        = (.ok ⟨⟨⟨u.id, u.email, u.username, now + 24 * 3600⟩, secret⟩, stripPassword u⟩,
           s.addSession ⟨⟨u.id, u.email, u.username, now + 24 * 3600⟩, secret⟩)) ∧
    (s.getUserByEmail input.email = none →
      Resolvers.login bcompare secret input now s
        = (.error Resolvers.invalidCredentialsError, s)) ∧
    (∀ u, s.getUserByEmail input.email = some u →
      bcompare input.password u.password = false →
      Resolvers.login bcompare secret input now s
        = (.error Resolvers.invalidCredentialsError, s)) := by
  refine ⟨?_, ?_, ?_⟩
  · intro u hfind hcmp
    simp [Resolvers.login, validateRequiredStr, hne, hpw, validateEmail, hre,
          hfind, hcmp, generateToken]
  · intro hfind
    simp [Resolvers.login, validateRequiredStr, hne, hpw, validateEmail, hre, hfind]
  · intro u hfind hcmp
    simp [Resolvers.login, validateRequiredStr, hne, hpw, validateEmail, hre,
          hfind, hcmp]

/-- Witness for C8_login: logging in as the concrete stored user with the
matching credential yields the token embedding exactly that user's identity
claims. -/
theorem C8_witness :
    Resolvers.login wCompare "secretK" ⟨"alice@example.com", "hashA"⟩ 2 wStoreBase
      = (.ok ⟨⟨⟨wAlice.id, wAlice.email, wAlice.username, 2 + 24 * 3600⟩, "secretK"⟩,
              stripPassword wAlice⟩,
         wStoreBase.addSession
           ⟨⟨wAlice.id, wAlice.email, wAlice.username, 2 + 24 * 3600⟩, "secretK"⟩) :=
  (C8_login wCompare "secretK" ⟨"alice@example.com", "hashA"⟩ 2 wStoreBase
    (by decide) (by decide) (by decide)).1 wAlice rfl rfl

/-- Claim C9: authentication outcome is independent of the session set.
Deriving the caller identity gives the same result on any two stores that
agree outside the session set; logout only changes the session set
(removing the context token); and a token signed with the right secret
authenticates exactly until its own embedded 24-hour expiry — so after
logout the very same token still authenticates on every later request. -/
theorem C9_session_independent_auth (secret : String) (now : Nat) :
    (∀ s1 s2 tok, s1.users = s2.users → s1.listings = s2.listings →
      s1.orders = s2.orders → s1.nextUserId = s2.nextUserId →
      s1.nextListingId = s2.nextListingId → s1.nextOrderId = s2.nextOrderId →
      deriveIdentity secret now s1 tok = deriveIdentity secret now s2 tok) ∧
    (∀ ctx s t u, ctx.token = some t → ctx.user = some u →
      Resolvers.logout ctx s
        = (.ok ⟨"Logout successful"⟩,
           { s with sessions := s.sessions.filter (fun x => x ≠ t) })) ∧
    (∀ (s : DataStore) (u : User) t0,
      deriveIdentity secret now s (some (generateToken secret t0 u))
        = if now < t0 + 24 * 3600
          then some ⟨u.id, u.email, u.username, t0 + 24 * 3600⟩
          else none) := by
  refine ⟨?_, ?_, ?_⟩
  · intro s1 s2 tok h1 h2 h3 h4 h5 h6
    rfl
  · intro ctx s t u ht hu
    simp [Resolvers.logout, requireAuth, hu, ht, DataStore.removeSession]
  · intro s u t0
    simp [deriveIdentity, jwtVerify, generateToken]

/-- Witness for C9_session_independent_auth: after the concrete user logs
out (the session set drops the token), the same unexpired token still
derives the same identity. -/
theorem C9_witness :
    deriveIdentity "secretK" 3
      (Resolvers.logout
        ⟨some wAlicePayload, some (generateToken "secretK" 2 wAlice)⟩
        (wStoreBase.addSession (generateToken "secretK" 2 wAlice))).2
      (some (generateToken "secretK" 2 wAlice))
      = deriveIdentity "secretK" 3
        (wStoreBase.addSession (generateToken "secretK" 2 wAlice))
        (some (generateToken "secretK" 2 wAlice)) :=
  (C9_session_independent_auth "secretK" 3).1
    (Resolvers.logout
      ⟨some wAlicePayload, some (generateToken "secretK" 2 wAlice)⟩
      (wStoreBase.addSession (generateToken "secretK" 2 wAlice))).2
    (wStoreBase.addSession (generateToken "secretK" 2 wAlice))
    (some (generateToken "secretK" 2 wAlice))
    rfl rfl rfl rfl rfl rfl

/-- Errors of validateUsername carry the username validation message. -/
theorem validateUsername_error_iff (s : String) (e : GqlError) :
    validateUsername s = .error e ↔
      s.length < 3 ∧
        e = ⟨"Username must be at least 3 characters long", "VALIDATION_ERROR"⟩ := by
  unfold validateUsername
  split_ifs with h <;> simp [h, eq_comm]

/-- Errors of validateEmail carry the email validation message. -/
theorem validateEmail_error_iff (s : String) (e : GqlError) :
    validateEmail s = .error e ↔
      emailRegexTest s = false ∧
        e = ⟨"Invalid email format", "VALIDATION_ERROR"⟩ := by
  unfold validateEmail
  split_ifs with h
  · simp [h]
  · simp only [Bool.not_eq_true] at h
    simp [h, eq_comm]

/-- Errors of validatePassword carry the password validation message. -/
theorem validatePassword_error_iff (s : String) (e : GqlError) :
    validatePassword s = .error e ↔
      s.length < 6 ∧
        e = ⟨"Password must be at least 6 characters long", "VALIDATION_ERROR"⟩ := by
  unfold validatePassword
  split_ifs with h <;> simp [h, eq_comm]

/-- The email check of updateUser never produces the User-not-found error:
its only errors are the email-format and email-conflict ones. -/
theorem emailCheck_ne_user_notFound (iem : Option String) (idv : Nat)
    (s : DataStore) :
    (Resolvers.userEmailCheck iem idv s
        = Except.error ⟨"User not found", "NOT_FOUND"⟩) ↔ False := by
  unfold Resolvers.userEmailCheck
  rcases iem with _ | em
  · simp
  · by_cases hem : em = ""
    · simp [hem]
    · by_cases hre : emailRegexTest em
      · cases hge : s.getUserByEmail em with
        | none => simp [hem, validateEmail, hre, hge]
        | some other =>
          by_cases hoid : other.id = idv <;>
            simp [hem, validateEmail, hre, hge, hoid, Resolvers.emailConflictError]
      · simp [hem, validateEmail, hre]

/-- The password check of updateUser never produces the User-not-found
error. -/
theorem pwCheck_ne_user_notFound (ipw : Option String) :
    (Resolvers.userPasswordCheck ipw
        = Except.error ⟨"User not found", "NOT_FOUND"⟩) ↔ False := by
  unfold Resolvers.userPasswordCheck
  rcases ipw with _ | pw
  · simp
  · by_cases hpw : pw = ""
    · simp [hpw]
    · by_cases hlen : pw.length < 6 <;> simp [hpw, validatePassword, hlen]

/-- Claim C10: for updateUser and deleteUser the ownership check precedes
the existence lookup: whenever the authenticated caller id differs from the
target id the result is FORBIDDEN regardless of whether the target user
exists (store unchanged), and the NOT_FOUND outcome is reachable only when
the caller targets their own id and that record is absent from the store. -/
theorem C10_ownership_before_existence (s : DataStore) (ctx : Context)
    (u : JwtPayload) (hu : ctx.user = some u) :
    (∀ hash id input now, u.id ≠ id →
      Resolvers.updateUser hash ctx id input now s = (.error accessDeniedError, s)) ∧
    (∀ id, u.id ≠ id →
      Resolvers.deleteUser ctx id s = (.error accessDeniedError, s)) ∧
    (∀ hash id input now v,
      Resolvers.updateUser hash ctx id input now s = (.error Resolvers.notFoundUser, v) →
      u.id = id ∧ s.getUserById id = none) ∧
    (∀ id v, Resolvers.deleteUser ctx id s = (.error Resolvers.notFoundUser, v) →
      u.id = id ∧ s.getUserById id = none) := by
  refine ⟨?_, ?_, ?_, ?_⟩
  · intro hash id input now hne
    simp [Resolvers.updateUser, requireOwnership, requireAuth, hu, hne]
  · intro id hne
    simp [Resolvers.deleteUser, requireOwnership, requireAuth, hu, hne]
  · intro hash id input now v h
    by_cases hid : u.id = id
    · refine ⟨hid, ?_⟩
      cases hgid : s.getUserById id with
      | none => rfl
      | some w =>
        simp only [Resolvers.updateUser, Resolvers.updateUser.updateUserChecked,
          requireOwnership, requireAuth, hu, hid, hgid] at h
        repeat' split at h
        all_goals simp_all [Resolvers.notFoundUser, validateUsername_error_iff,
          emailCheck_ne_user_notFound, pwCheck_ne_user_notFound]
    · have hro : requireOwnership ctx id = .error accessDeniedError := by
        simp [requireOwnership, requireAuth, hu, hid]
      simp only [Resolvers.updateUser, hro] at h
      simp [Resolvers.notFoundUser, accessDeniedError] at h
  · intro id v h
    by_cases hid : u.id = id
    · refine ⟨hid, ?_⟩
      cases hgid : s.getUserById id with
      | none => rfl
      | some w =>
        simp only [Resolvers.deleteUser, requireOwnership, requireAuth, hu, hid,
          hgid] at h
        repeat' split at h
        all_goals simp_all [Resolvers.notFoundUser]
    · have hro : requireOwnership ctx id = .error accessDeniedError := by
        simp [requireOwnership, requireAuth, hu, hid]
      simp only [Resolvers.deleteUser, hro] at h
      simp [Resolvers.notFoundUser, accessDeniedError] at h

/-- Witness for C10_ownership_before_existence: the concrete caller with id
2 targeting the nonexistent user id 99 receives FORBIDDEN, not NOT_FOUND. -/
theorem C10_witness :
    Resolvers.deleteUser wBobCtx 99 wStoreBase = (.error accessDeniedError, wStoreBase) :=
  (C10_ownership_before_existence wStoreBase wBobCtx wBobPayload rfl).2.1 99 (by decide)
